import Mathlib

/-!
Verification of the ATS resume analyser core (`resume_parser.py`, `job_matcher.py`).

The Python source is shallowly embedded: texts are `List Char`, Python floats
arising from the scoring arithmetic are modelled as `ℚ`, Python `None` as
`Option.none`, and Python dicts as insertion-ordered association lists.  The
spaCy NLP pipeline (tokenisation, stop-word flags, `PhraseMatcher` matches) and
the scikit-learn TF-IDF cosine similarity are external collaborators; where a
function consumes their output, that output is taken as an explicit argument
and the function's own logic is embedded faithfully.
-/

namespace ATS

/-! ## Basic character and string utilities -/

/-- Word characters for the regex `\b` word-boundary semantics: `[a-zA-Z0-9_]`. -/
def isWordChar (c : Char) : Bool :=
  (('a' ≤ c) && (c ≤ 'z')) || (('A' ≤ c) && (c ≤ 'Z')) || (('0' ≤ c) && (c ≤ '9')) || c = '_'

/-- Python `\s` whitespace characters. -/
def isPyWs (c : Char) : Bool :=
  c = ' ' || c = '\t' || c = '\n' || c = '\x0b' || c = '\x0c' || c = '\x0d'

/-- Python substring containment `needle in hay` (for non-empty needles). -/
def containsSub (needle : List Char) : List Char → Bool
  | [] => needle.isPrefixOf []
  | c :: t => needle.isPrefixOf (c :: t) || containsSub needle (t : List Char)

/-- Python substring containment on `String`s, `needle in hay`. -/
def strContains (needle hay : String) : Bool :=
  containsSub needle.toList hay.toList

/-- Lowercasing a string the way Python `str.lower` does on ASCII text. -/
def strLower (s : String) : String :=
  String.mk (s.toList.map Char.toLower)

/-! ## Education evaluator (`job_matcher.py`, `evaluate_education_match`) -/

/-- The `education_info` dict built by `resume_parser.extract_education`. -/
structure EducationInfo where
  degrees : List String
  institutions : List String
  dates : List String
deriving DecidableEq, Repr

/-- The `education_req` dict built by `job_matcher.extract_education_requirements`. -/
structure JdEduReq where
  degree_required : Bool
  degree_level : Option String
  field : Option String
deriving DecidableEq, Repr

/-- The `degree_levels` dict of `evaluate_education_match`, in source order. -/
def degree_levels : List (String × Nat) :=
  [("associate", 1), ("bachelor", 2), ("bachelors", 2), ("masters", 3),
   ("master", 3), ("phd", 4), ("doctorate", 4)]

/-- The `highest_degree` loop of `evaluate_education_match`: for every degree
string, every `degree_levels` entry whose key is a substring of the lowercased
degree raises the running maximum (starting from 0). -/
def highestDegree (resume_degrees : List String) : Nat :=
  resume_degrees.foldl
    (fun h degree =>
      degree_levels.foldl
        (fun h p => if strContains p.1 (strLower degree) then max h p.2 else h) h)
    0

/-- The `req_level_value` loop of `evaluate_education_match`: the value of the
first `degree_levels` entry whose key is a substring of the lowercased required
level, 0 if none matches. -/
def reqLevelValue (required_level : String) : Nat :=
  ((degree_levels.find? (fun p => strContains p.1 (strLower required_level))).map
    (fun p => p.2)).getD 0

/-- Model of `job_matcher.evaluate_education_match` (lines 205-251).  Returns a
score in `[0,1]` as an exact rational. -/
def evaluate_education_match (resume_edu : EducationInfo) (jd_edu_req : JdEduReq) : ℚ :=
  if jd_edu_req.degree_required = false then 1
  else if resume_edu.degrees = [] then 0
  else
    match jd_edu_req.degree_level with
    | none => 4/5
    | some required_level =>
      let hd := highestDegree resume_edu.degrees
      let req := reqLevelValue required_level
      if req ≤ hd then 1
      else if hd = req - 1 then 7/10
      else 3/10

/-! ## Regex `\b` whole-word matching -/

/-- Whether a regex word boundary `\b` lies between characters `l` and `r`
(`none` at the edges of the text): exactly one side is a word character. -/
def wordB (l r : Option Char) : Bool :=
  (match l with | none => false | some c => isWordChar c) ≠
  (match r with | none => false | some c => isWordChar c)

/-- Whether `\b needle \b` matches at the head of `text`, with `prev` the
character just before the current position (`none` at the start). -/
def matchWholeAt (needle : List Char) (prev : Option Char) (text : List Char) : Bool :=
  needle.isPrefixOf text &&
  wordB prev text.head? &&
  wordB needle.getLast? (text.drop needle.length).head?

/-- Helper scanning every position of the text for `\b needle \b` matches. -/
def wholeWordPositionsAux (needle : List Char) (prev : Option Char) (i : Nat) :
    List Char → List Nat
  | [] => if matchWholeAt needle prev [] then [i] else []
  | c :: t =>
    (if matchWholeAt needle prev (c :: t) then [i] else []) ++
    wholeWordPositionsAux needle (some c) (i + 1) t

/-- All positions where `re.search(r'\b needle \b', text)`-style matches start
(every position is scanned; the regex engine's leftmost match is the head). -/
def wholeWordPositions (needle : List Char) (text : List Char) : List Nat :=
  wholeWordPositionsAux needle none 0 text

/-- Whether `re.search(r'\b' + needle + r'\b', text)` finds a match. -/
def wholeWordSearch (needle : List Char) (text : List Char) : Bool :=
  wholeWordPositions needle text ≠ []

/-! ## Text normalizer (`job_matcher.py`, `clean_text`) -/

/-- Collapse every maximal run of Python whitespace to a single space
(the `re.sub(r'\s+', ' ', text)` step). -/
def collapseWs : List Char → List Char
  | [] => []
  | [c] => if isPyWs c then [' '] else [c]
  | c :: d :: t =>
    if isPyWs c && isPyWs d then collapseWs (d :: t)
    else (if isPyWs c then ' ' else c) :: collapseWs (d :: t)

/-- Python `str.strip()` after whitespace collapsing: drop spaces at both ends. -/
def stripEnds (l : List Char) : List Char :=
  ((l.dropWhile (fun c => isPyWs c)).reverse.dropWhile (fun c => isPyWs c)).reverse

/-- Model of `job_matcher.clean_text` (lines 24-30): lowercase, replace every
character outside `[a-zA-Z0-9\s]` by a space, collapse whitespace runs to one
space, strip. -/
def clean_text (text : List Char) : List Char :=
  let lowered := text.map Char.toLower
  let subbed := lowered.map (fun c =>
    if (('a' ≤ c && c ≤ 'z') || ('0' ≤ c && c ≤ '9') || isPyWs c) then c else ' ')
  stripEnds (collapseWs subbed)

/-! ## Keyword frequency analyzer (`job_matcher.py`, `calculate_keyword_frequency`) -/

/-- Helper for `dedupFirst`, carrying the elements already emitted. -/
def dedupFirstAux (seen : List String) : List String → List String
  | [] => []
  | x :: xs =>
    if seen.contains x then dedupFirstAux seen xs
    else x :: dedupFirstAux (seen ++ [x]) xs

/-- Distinct elements in first-occurrence order: the key order of a Python
`Counter` built by insertion. -/
def dedupFirst (l : List String) : List String :=
  dedupFirstAux [] l

/-- Stable insertion (descending by count) used to model the sort underlying
`Counter.most_common`: an element goes before the first entry whose count does
not exceed its own, so equal-count entries keep their original order. -/
def insertByCountDesc (cnt : String → Nat) (x : String) : List String → List String
  | [] => [x]
  | y :: ys => if cnt y ≤ cnt x then x :: y :: ys else y :: insertByCountDesc cnt x ys

/-- Stable sort by descending count (Python's `sorted` is stable, and
`Counter.most_common` breaks frequency ties by insertion order). -/
def sortByCountDesc (cnt : String → Nat) : List String → List String
  | [] => []
  | x :: xs => insertByCountDesc cnt x (sortByCountDesc cnt xs)

/-- The result dict of `calculate_keyword_frequency`. -/
structure KeywordFrequencyResult where
  keyword_presence : List (String × Nat)
  keyword_coverage : ℚ
  top_keywords : List String
deriving DecidableEq, Repr

/-- Model of `job_matcher.calculate_keyword_frequency` (lines 156-183).
`jdKeywords` is the token list spaCy produces from the lowercased job text
after the source's filter (not stop, not punctuation, length > 2) — spaCy
tokenisation is an external collaborator, so the filtered token list is taken
as input.  Whole-word occurrence counting in the resume models the source's
`re.findall(r'\b' + keyword + r'\b', resume_lower)`. -/
def calculate_keyword_frequency (jdKeywords : List String) (resume_text : List Char) :
    KeywordFrequencyResult :=
  let resume_lower := resume_text.map Char.toLower
  let top_keywords :=
    (sortByCountDesc (fun w => jdKeywords.count w) (dedupFirst jdKeywords)).take 20
  let keyword_presence :=
    top_keywords.map (fun kw => (kw, (wholeWordPositions kw.toList resume_lower).length))
  let keywords_found := (keyword_presence.filter (fun p => 0 < p.2)).length
  let keyword_coverage : ℚ :=
    if top_keywords ≠ [] then (keywords_found : ℚ) / (top_keywords.length : ℚ) else 0
  ⟨keyword_presence, keyword_coverage, top_keywords⟩

/-! ## Section segmenter (`resume_parser.py`, `extract_sections` / `find_section_start`) -/

/-- Header synonyms for the education section. -/
def EDUCATION_HEADERS : List String :=
  ["education", "academic background", "academic qualifications"]

/-- Header synonyms for the experience section. -/
def EXPERIENCE_HEADERS : List String :=
  ["experience", "work experience", "professional experience", "employment"]

/-- Header synonyms for the skills section. -/
def SKILLS_HEADERS : List String :=
  ["skills", "technical skills", "core competencies", "expertise"]

/-- Header synonyms for the projects section. -/
def PROJECTS_HEADERS : List String :=
  ["projects", "personal projects", "academic projects"]

/-- Whether the regex `header[ \t]*(?::|$|\n)` matches at the head of `text`:
the header, optional spaces/tabs, then a colon, a newline, or end-of-text
(Python's `$` before a trailing newline is subsumed by the `\n` branch). -/
def headerMatchAt (header : List Char) (text : List Char) : Bool :=
  header.isPrefixOf text &&
  (match (text.drop header.length).dropWhile (fun c => c = ' ' || c = '\t') with
   | [] => true
   | c :: _ => c = ':' || c = '\n')

/-- Helper collecting every position where `headerMatchAt` fires. -/
def headerPositionsAux (header : List Char) (i : Nat) : List Char → List Nat
  | [] => if headerMatchAt header [] then [i] else []
  | c :: t =>
    (if headerMatchAt header (c :: t) then [i] else []) ++
    headerPositionsAux header (i + 1) t

/-- All match start positions for one header (the source's `re.finditer` loop;
only the minimum is consumed, which both scans share). -/
def headerPositions (header : List Char) (text : List Char) : List Nat :=
  headerPositionsAux header 0 text

/-- Minimum of a list of naturals, `none` when empty. -/
def listMin? : List Nat → Option Nat
  | [] => none
  | x :: xs => match listMin? xs with
    | none => some x
    | some m => some (min x m)

/-- Model of `resume_parser.find_section_start` (lines 63-72): the minimum
match position over all possible headers, `-1` if none matches. -/
def find_section_start (text : List Char) (possible_headers : List String) : Int :=
  let positions := possible_headers.foldr
    (fun h acc => headerPositions h.toList text ++ acc) []
  match listMin? positions with
  | none => -1
  | some m => (m : Int)

/-- Ascending insertion used to model Python `sorted` on the found positions. -/
def insertAsc (x : Nat) : List Nat → List Nat
  | [] => [x]
  | y :: ys => if x ≤ y then x :: y :: ys else y :: insertAsc x ys

/-- Python `sorted` on a list of naturals. -/
def sortAsc : List Nat → List Nat
  | [] => []
  | x :: xs => insertAsc x (sortAsc xs)

/-- The fixed section-name order used by `extract_sections`. -/
def SECTION_NAMES : List String := ["education", "experience", "skills", "projects"]

/-- Model of `resume_parser.extract_sections` (lines 39-61).  The four header
positions are computed on the lowercased text; `all_starts` is the sorted list
of found positions; the found section names are kept in the fixed
`SECTION_NAMES` order, and the i-th found name is paired with the slice from
`all_starts[i]` to `all_starts[i+1]` (or end of text) — exactly the source's
`zip`/`enumerate` construction. -/
def extract_sections (text : List Char) : List (String × List Char) :=
  let text_lower := text.map Char.toLower
  let education_start := find_section_start text_lower EDUCATION_HEADERS
  let experience_start := find_section_start text_lower EXPERIENCE_HEADERS
  let skills_start := find_section_start text_lower SKILLS_HEADERS
  let projects_start := find_section_start text_lower PROJECTS_HEADERS
  let starts := [education_start, experience_start, skills_start, projects_start]
  let all_starts := sortAsc ((starts.filter (fun p => -1 < p)).map Int.toNat)
  let found := ((SECTION_NAMES.zip starts).filter (fun p => -1 < p.2)).map Prod.fst
  found.enum.map (fun p =>
    let start := all_starts.getD p.1 0
    let stop := if p.1 + 1 < all_starts.length then all_starts.getD (p.1 + 1) 0
                else text_lower.length
    (p.2, (text.drop start).take (stop - start)))

/-- Lookup in the sections association list (Python `sections.get(name, default)`
with the default handled by the caller). -/
def sectionsLookup (k : String) : List (String × List Char) → Option (List Char)
  | [] => none
  | p :: rest => if p.1 = k then some p.2 else sectionsLookup k rest

/-! ## Experience evaluator (`job_matcher.py`, `evaluate_experience_match`) -/

/-- The fields of the `experience` dict built by `resume_parser.extract_experience`
that the matcher reads.  `duration` is `none` for Python `None` and `some q`
for a numeric value (Python treats both `None` and `0` as falsy). -/
structure ExperienceInfo where
  positions : List String
  companies : List String
  duration : Option ℚ
deriving DecidableEq, Repr

/-- Python truthiness of the `duration` field: falsy iff `None` or `0`. -/
def durationFalsy (d : Option ℚ) : Bool :=
  d = none || d = some 0

/-- Model of `job_matcher.evaluate_experience_match` (lines 185-203). -/
def evaluate_experience_match (resume_exp : ExperienceInfo)
    (jd_requirements : List (String × Nat)) : ℚ :=
  if durationFalsy resume_exp.duration || jd_requirements = [] then 1/2
  else
    let general_req := ((jd_requirements.find? (fun p => p.1 = "general")).map
      (fun p => p.2)).getD 0
    if 0 < general_req then
      let resume_years := resume_exp.duration.getD 0
      if (general_req : ℚ) ≤ resume_years then 1
      else if (general_req : ℚ) * (7/10) ≤ resume_years then 7/10
      else 2/5
    else 1/2

/-! ## Skills-match weighting (`job_matcher.py`, `score_resume` lines 260-286) -/

/-- Importance tags produced by `extract_jd_skills`.  The source's
`KEYWORD_WEIGHTS` dict also holds `experience`/`education` entries, but
`extract_jd_skills` only ever emits these three, so only they reach the
`KEYWORD_WEIGHTS[importance]` lookup in `score_resume`. -/
inductive Importance where
  | must_have
  | preferred
  | standard
deriving DecidableEq, Repr

/-- The weights of `KEYWORD_WEIGHTS` for the tags `extract_jd_skills` emits. -/
def KEYWORD_WEIGHTS : Importance → ℚ
  | .must_have => 2
  | .preferred => 3/2
  | .standard => 1

/-- Accumulator of the skills loop in `score_resume`: the running
`total_weight`/`matched_weight` and the three matched-skill lists. -/
structure SkillAcc where
  total_weight : ℚ
  matched_weight : ℚ
  must_have_skills : List String
  preferred_skills : List String
  standard_skills : List String
deriving DecidableEq, Repr

/-- One iteration of the `for skill, importance in jd_skills_with_importance.items()`
loop of `score_resume`. -/
def skillLoopStep (resume_skills : List String) (acc : SkillAcc)
    (p : String × Importance) : SkillAcc :=
  let weight := KEYWORD_WEIGHTS p.2
  let acc1 := { acc with total_weight := acc.total_weight + weight }
  if resume_skills.contains p.1 then
    let acc2 := { acc1 with matched_weight := acc1.matched_weight + weight }
    match p.2 with
    | .must_have => { acc2 with must_have_skills := acc2.must_have_skills ++ [p.1] }
    | .preferred => { acc2 with preferred_skills := acc2.preferred_skills ++ [p.1] }
    | .standard => { acc2 with standard_skills := acc2.standard_skills ++ [p.1] }
  else acc1

/-- The whole skills loop of `score_resume`, iterating the job-skill dict in
insertion order (Python dict iteration order). -/
def skillLoop (resume_skills : List String)
    (jd_skills : List (String × Importance)) : SkillAcc :=
  jd_skills.foldl (skillLoopStep resume_skills) ⟨0, 0, [], [], []⟩

/-- The `skills_match` percentage of `score_resume` (line 286):
`matched_weight / total_weight * 100` when `total_weight > 0`, else 0. -/
def skills_match_of (resume_skills : List String)
    (jd_skills : List (String × Importance)) : ℚ :=
  let acc := skillLoop resume_skills jd_skills
  if 0 < acc.total_weight then acc.matched_weight / acc.total_weight * 100 else 0

/-- The total importance weight of a job-skill dict (the loop's `total_weight`
as a direct sum, used to reason about `skillLoop`). -/
def totalW : List (String × Importance) → ℚ
  | [] => 0
  | p :: l => KEYWORD_WEIGHTS p.2 + totalW l

/-- The matched importance weight of a job-skill dict against a resume skill
list (the loop's `matched_weight` as a direct sum). -/
def matchedW (resume_skills : List String) : List (String × Importance) → ℚ
  | [] => 0
  | p :: l =>
    (if resume_skills.contains p.1 then KEYWORD_WEIGHTS p.2 else 0) + matchedW resume_skills l

/-! ## Skill vocabulary (`resume_parser.py`, `SKILLS_DB` / `ALL_SKILLS`) -/

/-- `ALL_SKILLS`: the flattening of `SKILLS_DB`, in source order (programming
languages, web dev, databases, cloud, data science, devops, soft skills). -/
def ALL_SKILLS : List String :=
  ["python", "java", "c++", "c#", "javascript", "typescript", "ruby", "php",
   "swift", "kotlin", "go", "rust", "perl", "scala",
   "html", "css", "react", "angular", "vue.js", "node.js", "express", "django",
   "flask", "spring boot", "asp.net", "jquery", "bootstrap", "tailwind",
   "sql", "mysql", "postgresql", "mongodb", "firebase", "redis", "oracle",
   "cassandra", "dynamodb", "sqlite",
   "aws", "azure", "google cloud", "heroku", "digitalocean", "kubernetes",
   "docker", "terraform", "cloudformation",
   "machine learning", "deep learning", "nlp", "data analysis", "tensorflow",
   "pytorch", "keras", "scikit-learn", "pandas", "numpy", "tableau", "power bi",
   "git", "github", "gitlab", "ci/cd", "jenkins", "travis ci", "circle ci",
   "ansible", "puppet", "chef",
   "communication", "teamwork", "leadership", "problem-solving",
   "time management", "critical thinking", "adaptability", "creativity"]

/-! ## Job-skill extraction (`job_matcher.py`, `extract_jd_skills`) -/

/-- Python dict assignment `d[k] = v` on an insertion-ordered association
list: an existing key is overwritten in place, a new key is appended. -/
def dictInsert (k : String) (v : Importance) :
    List (String × Importance) → List (String × Importance)
  | [] => [(k, v)]
  | p :: rest => if p.1 = k then (k, v) :: rest else p :: dictInsert k v rest

/-- Python dict lookup `d[k]` / membership, as an option. -/
def dictLookup (k : String) : List (String × Importance) → Option Importance
  | [] => none
  | p :: rest => if p.1 = k then some p.2 else dictLookup k rest

/-- The must-have cue words of `extract_jd_skills`. -/
def REQ_WORDS : List String := ["must", "required", "essential", "necessary"]

/-- The preferred cue words of `extract_jd_skills`. -/
def PREF_WORDS : List String := ["preferred", "nice to have", "plus", "desirable"]

/-- The context classification shared by both passes of `extract_jd_skills`:
must-have cues win over preferred cues, anything else is standard.  Cue
detection is Python substring containment. -/
def classifyImportance (context : String) : Importance :=
  if REQ_WORDS.any (fun w => strContains w context) then .must_have
  else if PREF_WORDS.any (fun w => strContains w context) then .preferred
  else .standard

/-- The context window of the fallback pass of `extract_jd_skills`:
`re.search(r'.{0,50}\b skill \b.{0,50}', jd_text_clean).group(0)`.  The
leftmost match starts 50 characters (clamped) before the first whole-word
occurrence `i`; the greedy prefix then reaches the last occurrence within the
next 50 characters, and the greedy suffix extends 50 characters past it. -/
def contextWindow (skill : List Char) (text : List Char) : List Char :=
  match wholeWordPositions skill text with
  | [] => []
  | i :: rest =>
    let p := i - 50
    let js := (i :: rest).filter (fun j => j ≤ p + 50)
    let jstar := js.getLastD i
    (text.drop p).take (jstar + skill.length + 50 - p)

/-- The `PhraseMatcher` pass of `extract_jd_skills` (lines 44-63).  The spaCy
`PhraseMatcher` itself is an external collaborator: `jdMatches` is its match
list in document order, each entry carrying the matched skill text and the
±10-token context window text (`doc[context_start:context_end].text`).  Every
match is written into the dict with plain assignment
(`skills_found[skill] = importance`), overwriting any earlier entry. -/
def jdSkillsPass1 (jdMatches : List (String × String)) : List (String × Importance) :=
  jdMatches.foldl (fun d m => dictInsert m.1 (classifyImportance m.2) d) []

/-- One iteration of the fallback loop of `extract_jd_skills`: a vocabulary
skill not yet in the dict whose whole-word regex search succeeds in the
cleaned job text is classified from its ±50-character context and inserted;
anything else leaves the dict untouched. -/
def pass2Step (jd_text_clean : List Char) (d : List (String × Importance))
    (skill : String) : List (String × Importance) :=
  if (dictLookup skill d).isNone && wholeWordSearch skill.toList jd_text_clean then
    dictInsert skill
      (classifyImportance (String.mk (contextWindow skill.toList jd_text_clean))) d
  else d

/-- The fallback pass of `extract_jd_skills` (lines 66-78), iterating the
whole skill vocabulary in source order. -/
def jdSkillsPass2 (jd_text_clean : List Char) (d0 : List (String × Importance)) :
    List (String × Importance) :=
  ALL_SKILLS.foldl (pass2Step jd_text_clean) d0

/-- Model of `job_matcher.extract_jd_skills` (lines 32-80): the
`PhraseMatcher` pass followed by the fallback whole-word regex pass on the
shared `skills_found` dict. -/
def extract_jd_skills (jdMatches : List (String × String)) (jd_text_clean : List Char) :
    List (String × Importance) :=
  jdSkillsPass2 jd_text_clean (jdSkillsPass1 jdMatches)

/-! ## Suggestion generator (`job_matcher.py`, `generate_improvement_suggestions`) -/

/-- A suggestion dict: category, message, priority. -/
structure Suggestion where
  category : String
  message : String
  priority : String
deriving DecidableEq, Repr

/-- The `component_scores` sub-dict of an analysis result. -/
structure ComponentScores where
  skills_match : ℚ
  keyword_match : ℚ
  content_similarity : ℚ
  experience_match : ℚ
  education_match : ℚ
deriving DecidableEq, Repr

/-- The fields of the `score_resume` result that
`generate_improvement_suggestions` reads. -/
structure AnalysisResult where
  score : ℚ
  component_scores : ComponentScores
  missing_must_have : List String
  missing_preferred : List String
deriving DecidableEq, Repr

/-- Python `", ".join(l)`. -/
def joinComma (l : List String) : String :=
  String.intercalate ", " l

/-- Rule 1 suggestion (missing must-have skills). -/
def criticalSkillsSuggestion (missing : List String) : Suggestion :=
  ⟨"Critical Skills", "Add these essential skills to your resume: " ++ joinComma missing, "High"⟩

/-- Rule 2 suggestion (missing preferred skills). -/
def preferredSkillsSuggestion (missing : List String) : Suggestion :=
  ⟨"Preferred Skills", "Consider highlighting experience with: " ++ joinComma missing, "Medium"⟩

/-- Rule 3 suggestion (skills_match < 50). -/
def skillsAlignmentSuggestion : Suggestion :=
  ⟨"Skills Alignment", "Your skills don\x27t strongly align with job requirements. Review the job posting and tailor your resume accordingly.", "High"⟩

/-- Rule 4 suggestion (keyword_match < 40). -/
def keywordsSuggestion : Suggestion :=
  ⟨"Keywords", "Your resume is missing important keywords from the job description. Consider using more industry-specific terminology.", "Medium"⟩

/-- Rule 5 suggestion (content_similarity < 30). -/
def contentRelevanceSuggestion : Suggestion :=
  ⟨"Content Relevance", "The overall content of your resume doesn\x27t closely match the job description. Consider rewriting to better align with the role.", "Medium"⟩

/-- Rule 6 suggestion (experience_match < 50). -/
def experienceSuggestion : Suggestion :=
  ⟨"Experience", "Your experience level may not meet the job requirements. Highlight relevant projects or roles that demonstrate equivalent experience.", "High"⟩

/-- Rule 7 suggestion (education_match < 50). -/
def educationSuggestion : Suggestion :=
  ⟨"Education", "Your education may not meet the job requirements. Consider highlighting relevant coursework or certifications.", "Medium"⟩

/-- First generic rule-8 suggestion. -/
def formatSuggestion : Suggestion :=
  ⟨"Resume Format", "Consider using a more ATS-friendly format with clear section headers and bullet points.", "Low"⟩

/-- Second generic rule-8 suggestion. -/
def quantifySuggestion : Suggestion :=
  ⟨"Quantify Achievements", "Add measurable achievements and results to strengthen your resume.", "Medium"⟩

/-- Rule 9 suggestion (score < 40). -/
def overallMatchSuggestion : Suggestion :=
  ⟨"Overall Match", "This role may not be a good match for your current resume. Consider applying to roles that better align with your experience or making significant updates.", "High"⟩

/-- The suggestions appended by rules 1-7 of `generate_improvement_suggestions`,
in source order; each rule contributes its suggestion exactly when its
condition holds. -/
def rules1to7 (a : AnalysisResult) : List Suggestion :=
  (if a.missing_must_have ≠ [] then [criticalSkillsSuggestion a.missing_must_have] else []) ++
  (if a.missing_preferred ≠ [] then [preferredSkillsSuggestion a.missing_preferred] else []) ++
  (if a.component_scores.skills_match < 50 then [skillsAlignmentSuggestion] else []) ++
  (if a.component_scores.keyword_match < 40 then [keywordsSuggestion] else []) ++
  (if a.component_scores.content_similarity < 30 then [contentRelevanceSuggestion] else []) ++
  (if a.component_scores.experience_match < 50 then [experienceSuggestion] else []) ++
  (if a.component_scores.education_match < 50 then [educationSuggestion] else [])

/-- Model of `job_matcher.generate_improvement_suggestions` (lines 348-429):
rules 1-7, then the two generic rule-8 suggestions when nothing fired yet and
the score is below 85, then the rule-9 "Overall Match" suggestion when the
score is below 40. -/
def generate_improvement_suggestions (a : AnalysisResult) : List Suggestion :=
  let s1 := rules1to7 a
  let s2 := if s1 = [] ∧ a.score < 85 then s1 ++ [formatSuggestion, quantifySuggestion] else s1
  if a.score < 40 then s2 ++ [overallMatchSuggestion] else s2

/-! ## Experience extractor (`resume_parser.py`, `extract_experience`) -/

/-- Model of `resume_parser.extract_experience` (lines 150-194).  The function
first segments the resume; when `sections.get('experience', '')` is empty it
returns `{"positions": [], "companies": [], "duration": 0}` immediately.  The
remainder of the body (job-title regex, company regex, date-pair duration
arithmetic) runs only on a non-empty experience section and is supplied as
`restOfBody`, since the claims checked here concern only the early return. -/
def extract_experience (restOfBody : List Char → ExperienceInfo)
    (text : List Char) : ExperienceInfo :=
  let sections := extract_sections text
  let experience_section := (sectionsLookup "experience" sections).getD []
  if experience_section = [] then ⟨[], [], some 0⟩
  else restOfBody experience_section

/-! ## Score aggregator (`job_matcher.py`, `score_resume`) -/

/-- Python `round(x, 1)` modelled as exact rational rounding to one decimal
(ties and binary floating-point noise are outside the claims checked here). -/
def round1 (x : ℚ) : ℚ := ((round (10 * x) : ℤ) : ℚ) / 10

/-- The fields of `resume_data` that `score_resume` reads: the raw text (for
keyword counting), the skill list, and the experience/education dicts. -/
structure ResumeData where
  text : List Char
  skills : List String
  experience : ExperienceInfo
  education : EducationInfo
deriving DecidableEq, Repr

/-- The result dict of `score_resume`. -/
structure ScoreResult where
  score : ℚ
  component_scores : ComponentScores
  matched_must_have : List String
  matched_preferred : List String
  matched_standard : List String
  missing_must_have : List String
  missing_preferred : List String
  keyword_analysis : List (String × Nat)
  top_keywords : List String
  experience_requirements : List (String × Nat)
  education_requirements : JdEduReq
deriving DecidableEq, Repr

/-- Model of `job_matcher.score_resume` (lines 253-346).  External
collaborators are explicit arguments: `jdMatches` is the spaCy
`PhraseMatcher` match list consumed by `extract_jd_skills`;
`jd_exp_requirements` and `jd_edu_requirements` are the outputs of the
regex-based requirement extractors (lines 82-137); `content_similarity_raw` is
the TF-IDF cosine similarity in `[0,1]`; `jdKeywords` is the filtered spaCy
token list consumed by `calculate_keyword_frequency`.  The source performs no
input validation and contains no `raise`, so the embedding always returns
`Except.ok`; the `Except` layer records where a validation failure would have
to surface. -/
def score_resume (resume_data : ResumeData) (jd_text : String)
    (jdMatches : List (String × String)) (jd_exp_requirements : List (String × Nat))
    (jd_edu_requirements : JdEduReq) (content_similarity_raw : ℚ)
    (jdKeywords : List String) : Except String ScoreResult :=
  let jd_skills_with_importance := extract_jd_skills jdMatches (clean_text jd_text.toList)
  let resume_skills := resume_data.skills
  let acc := skillLoop resume_skills jd_skills_with_importance
  let skills_match :=
    if 0 < acc.total_weight then acc.matched_weight / acc.total_weight * 100 else 0
  let content_similarity := content_similarity_raw * 100
  let keyword_data := calculate_keyword_frequency jdKeywords resume_data.text
  let exp_match := evaluate_experience_match resume_data.experience jd_exp_requirements * 100
  let edu_match := evaluate_education_match resume_data.education jd_edu_requirements * 100
  let missing_must_have := (jd_skills_with_importance.filter
    (fun p => p.2 = Importance.must_have && !(resume_skills.contains p.1))).map Prod.fst
  let missing_preferred := (jd_skills_with_importance.filter
    (fun p => p.2 = Importance.preferred && !(resume_skills.contains p.1))).map Prod.fst
  let final_score :=
    skills_match * (2/5) + keyword_data.keyword_coverage * 100 * (1/5) +
    content_similarity * (3/20) + exp_match * (3/20) + edu_match * (1/10)
  Except.ok
    { score := round1 final_score
      component_scores :=
        ⟨round1 skills_match, round1 (keyword_data.keyword_coverage * 100),
         round1 content_similarity, round1 exp_match, round1 edu_match⟩
      matched_must_have := acc.must_have_skills
      matched_preferred := acc.preferred_skills
      matched_standard := acc.standard_skills
      missing_must_have := missing_must_have
      missing_preferred := missing_preferred
      keyword_analysis := keyword_data.keyword_presence
      top_keywords := keyword_data.top_keywords
      experience_requirements := jd_exp_requirements
      education_requirements := jd_edu_requirements }

/-! ## Supporting lemmas -/

/-- A key absent from every pair of a sections list has no lookup result. -/
lemma sectionsLookup_eq_none (k : String) :
    ∀ l : List (String × List Char), (∀ p ∈ l, p.1 ≠ k) → sectionsLookup k l = none := by
  intro l
  induction l with
  | nil => intro _; rfl
  | cons p rest ih =>
    intro h
    have hp : p.1 ≠ k := h p (List.mem_cons_self p rest)
    simp only [sectionsLookup, if_neg hp]
    exact ih (fun q hq => h q (List.mem_cons_of_mem p hq))

/-- When the experience headers are nowhere found, `extract_sections` emits no
`"experience"` entry. -/
lemma experience_not_in_sections (text : List Char)
    (h : find_section_start (text.map Char.toLower) EXPERIENCE_HEADERS = -1) :
    sectionsLookup "experience" (extract_sections text) = none := by
  apply sectionsLookup_eq_none
  intro p hp
  simp only [extract_sections, List.mem_map] at hp
  obtain ⟨q, hq, hqp⟩ := hp
  have hq2 : q.2 ∈ (((SECTION_NAMES.zip
      [find_section_start (text.map Char.toLower) EDUCATION_HEADERS,
       find_section_start (text.map Char.toLower) EXPERIENCE_HEADERS,
       find_section_start (text.map Char.toLower) SKILLS_HEADERS,
       find_section_start (text.map Char.toLower) PROJECTS_HEADERS]).filter
        (fun p => -1 < p.2)).map Prod.fst) := by
    have := List.mem_map_of_mem Prod.snd hq
    rwa [List.enum_map_snd] at this
  have hname : p.1 = q.2 := by rw [← hqp]
  rw [hname]
  intro hcontra
  rw [hcontra] at hq2
  simp only [SECTION_NAMES, List.zip_cons_cons, List.zip_nil_right, List.mem_map,
    List.mem_filter] at hq2
  obtain ⟨r, ⟨hr, hrpos⟩, hrname⟩ := hq2
  rw [h] at hr
  fin_cases hr <;> simp_all

/-! ## Claim theorems -/

/-- Claim C6 counterexample.  The claim says a resume whose degrees match no
level on the ordinal scale scores 0.3 when a specific level is required; but
with required level "associate" (value 1) and a non-empty degree list matching
no level (highest = 0), the code's `highest == required - 1` branch fires and
returns 0.7. -/
theorem C6_counterexample :
    evaluate_education_match ⟨["diploma"], [], []⟩ ⟨true, some "associate", none⟩ = 7/10 ∧
    highestDegree ["diploma"] = 0 ∧
    reqLevelValue "associate" = 1 ∧
    (7/10 : ℚ) ≠ 3/10 := by
  refine ⟨rfl, rfl, rfl, ?_⟩
  norm_num

/-- Claim C6, amended: with a degree required at a specific level of ordinal
value `r ≥ 1` and a non-empty degree list, the evaluator returns 1.0 when the
resume's highest detected level reaches `r`, 0.7 when it equals `r - 1`
(including the no-match case, treated as level 0, when `r = 1`), and 0.3 when
it is below `r - 1`. -/
theorem C6_education_level_cases (edu : EducationInfo) (req : JdEduReq) (lvl : String)
    (hdeg : edu.degrees ≠ []) (hreq : req.degree_required = true)
    (hlvl : req.degree_level = some lvl) :
    (reqLevelValue lvl ≤ highestDegree edu.degrees →
      evaluate_education_match edu req = 1) ∧
    (highestDegree edu.degrees < reqLevelValue lvl →
      highestDegree edu.degrees = reqLevelValue lvl - 1 →
      evaluate_education_match edu req = 7/10) ∧
    (highestDegree edu.degrees < reqLevelValue lvl - 1 →
      evaluate_education_match edu req = 3/10) := by
  unfold evaluate_education_match
  rw [hreq, hlvl]
  simp only [Bool.true_eq_false, if_false, if_neg hdeg]
  refine ⟨?_, ?_, ?_⟩
  · intro hle
    rw [if_pos hle]
  · intro hlt heq
    rw [if_neg (by omega), if_pos heq]
  · intro hlt
    rw [if_neg (by omega), if_neg (by omega)]

/-- Claim C6 witness: a bachelor-level requirement met by a master's degree
scores 1.0. -/
theorem C6_education_level_cases_witness :
    evaluate_education_match ⟨["master of science"], [], []⟩ ⟨true, some "bachelor", none⟩ = 1 :=
  (C6_education_level_cases ⟨["master of science"], [], []⟩ ⟨true, some "bachelor", none⟩
    "bachelor" (by simp) rfl rfl).1 (by decide)

/-- Claim C8: the education evaluator is monotone in the resume's highest
detected degree level, the job requirement held fixed (for resumes that list
at least one degree, so the highest detected level is defined). -/
theorem C8_education_monotonic (jd : JdEduReq) (r1 r2 : EducationInfo)
    (h1 : r1.degrees ≠ []) (h2 : r2.degrees ≠ [])
    (hle : highestDegree r1.degrees ≤ highestDegree r2.degrees) :
    evaluate_education_match r1 jd ≤ evaluate_education_match r2 jd := by
  unfold evaluate_education_match
  cases hreq : jd.degree_required with
  | false => simp
  | true =>
    simp only [Bool.true_eq_false, if_false, if_neg h1, if_neg h2]
    cases hlvl : jd.degree_level with
    | none => simp
    | some lvl =>
      simp only
      split_ifs <;> norm_num <;> omega

/-- Claim C8 witness: with a master requirement fixed, a bachelor resume
scores no more than a phd resume. -/
theorem C8_education_monotonic_witness :
    evaluate_education_match ⟨["bachelor"], [], []⟩ ⟨true, some "master", none⟩ ≤
    evaluate_education_match ⟨["phd"], [], []⟩ ⟨true, some "master", none⟩ :=
  C8_education_monotonic ⟨true, some "master", none⟩ ⟨["bachelor"], [], []⟩ ⟨["phd"], [], []⟩
    (by simp) (by simp) (by decide)

/-- Claim C5 counterexample.  On a resume with no experience section header the
extractor does return zero positions and companies without touching the rest
of the text (the `restOfBody` argument is ignored), but the early return sets
`duration` to the number 0, not to Python `None` as the claim states (the
normal path line 193 is where `None` is produced). -/
theorem C5_counterexample :
    extract_experience (fun _ => ⟨["x"], ["y"], some 1⟩) "skills: python".toList =
      ⟨[], [], some 0⟩ ∧
    (some (0 : ℚ) : Option ℚ) ≠ none := by
  exact ⟨rfl, by simp⟩

/-- Claim C5, amended: when no experience section header is found the extractor
returns zero positions, zero companies and duration 0 (a falsy value, but the
number 0 rather than null), without falling back to the rest of the text. -/
theorem C5_no_experience_section (restOfBody : List Char → ExperienceInfo)
    (text : List Char)
    (h : find_section_start (text.map Char.toLower) EXPERIENCE_HEADERS = -1) :
    extract_experience restOfBody text = ⟨[], [], some 0⟩ := by
  simp [extract_experience, experience_not_in_sections text h]

/-- Claim C5 witness: the amended statement evaluated on a concrete resume
without an experience header. -/
theorem C5_no_experience_section_witness :
    extract_experience (fun _ => ⟨["x"], ["y"], some 1⟩) "education: mit".toList =
      ⟨[], [], some 0⟩ :=
  C5_no_experience_section (fun _ => ⟨["x"], ["y"], some 1⟩) "education: mit".toList rfl

/-- Claim C2 (code bug evidence).  In the resume text
`"skills:\npython\neducation:\nmit"` the skills header starts at 0 and the
education header at 15, yet `extract_sections` pairs the fixed-order found
names with the position-sorted starts by index: "education" receives the span
starting at the *skills* header (characters 0-14) instead of the span starting
at its own header (characters 15-end), which "skills" receives. -/
theorem C2_section_misassignment :
    find_section_start ("skills:\npython\neducation:\nmit".toList.map Char.toLower)
      EDUCATION_HEADERS = 15 ∧
    find_section_start ("skills:\npython\neducation:\nmit".toList.map Char.toLower)
      SKILLS_HEADERS = 0 ∧
    sectionsLookup "education" (extract_sections "skills:\npython\neducation:\nmit".toList) =
      some ("skills:\npython\neducation:\nmit".toList.take 15) ∧
    sectionsLookup "skills" (extract_sections "skills:\npython\neducation:\nmit".toList) =
      some ("skills:\npython\neducation:\nmit".toList.drop 15) ∧
    sectionsLookup "education" (extract_sections "skills:\npython\neducation:\nmit".toList) ≠
      some ("skills:\npython\neducation:\nmit".toList.drop 15) := by
  refine ⟨rfl, rfl, rfl, rfl, ?_⟩
  decide

/-! ## Skills-match lemmas and claim C4 -/

/-- Every importance weight is at least 1. -/
lemma one_le_KEYWORD_WEIGHTS (i : Importance) : 1 ≤ KEYWORD_WEIGHTS i := by
  cases i <;> norm_num [KEYWORD_WEIGHTS]

/-- One loop step always adds the skill's weight to `total_weight`. -/
lemma skillLoopStep_total (rs : List String) (acc : SkillAcc) (p : String × Importance) :
    (skillLoopStep rs acc p).total_weight = acc.total_weight + KEYWORD_WEIGHTS p.2 := by
  obtain ⟨s, imp⟩ := p
  unfold skillLoopStep
  split_ifs <;> cases imp <;> simp

/-- One loop step adds the skill's weight to `matched_weight` exactly when the
resume holds the skill. -/
lemma skillLoopStep_matched (rs : List String) (acc : SkillAcc) (p : String × Importance) :
    (skillLoopStep rs acc p).matched_weight = acc.matched_weight +
      (if rs.contains p.1 then KEYWORD_WEIGHTS p.2 else 0) := by
  obtain ⟨s, imp⟩ := p
  unfold skillLoopStep
  split_ifs <;> cases imp <;> simp

/-- The fold accumulates `totalW`. -/
lemma skillLoop_foldl_total (rs : List String) :
    ∀ (l : List (String × Importance)) (acc : SkillAcc),
      (List.foldl (skillLoopStep rs) acc l).total_weight = acc.total_weight + totalW l := by
  intro l
  induction l with
  | nil => intro acc; simp [totalW]
  | cons p l ih =>
    intro acc
    rw [List.foldl_cons, ih, skillLoopStep_total, totalW]
    ring

/-- The fold accumulates `matchedW`. -/
lemma skillLoop_foldl_matched (rs : List String) :
    ∀ (l : List (String × Importance)) (acc : SkillAcc),
      (List.foldl (skillLoopStep rs) acc l).matched_weight =
        acc.matched_weight + matchedW rs l := by
  intro l
  induction l with
  | nil => intro acc; simp [matchedW]
  | cons p l ih =>
    intro acc
    rw [List.foldl_cons, ih, skillLoopStep_matched, matchedW]
    ring

/-- `skillLoop`'s final `total_weight` is the weight sum. -/
lemma skillLoop_total (rs : List String) (l : List (String × Importance)) :
    (skillLoop rs l).total_weight = totalW l := by
  unfold skillLoop
  rw [skillLoop_foldl_total]
  simp

/-- `skillLoop`'s final `matched_weight` is the matched weight sum. -/
lemma skillLoop_matched (rs : List String) (l : List (String × Importance)) :
    (skillLoop rs l).matched_weight = matchedW rs l := by
  unfold skillLoop
  rw [skillLoop_foldl_matched]
  simp

/-- `matchedW` is nonnegative. -/
lemma matchedW_nonneg (rs : List String) :
    ∀ l : List (String × Importance), 0 ≤ matchedW rs l := by
  intro l
  induction l with
  | nil => simp [matchedW]
  | cons p l ih =>
    rw [matchedW]
    have hw := one_le_KEYWORD_WEIGHTS p.2
    split_ifs <;> linarith

/-- `matchedW` never exceeds `totalW`. -/
lemma matchedW_le_totalW (rs : List String) :
    ∀ l : List (String × Importance), matchedW rs l ≤ totalW l := by
  intro l
  induction l with
  | nil => simp [matchedW, totalW]
  | cons p l ih =>
    rw [matchedW, totalW]
    have hw := one_le_KEYWORD_WEIGHTS p.2
    split_ifs <;> linarith

/-- A non-empty job-skill dict has weight at least 1. -/
lemma one_le_totalW (l : List (String × Importance)) (h : l ≠ []) : 1 ≤ totalW l := by
  cases l with
  | nil => exact absurd rfl h
  | cons p l =>
    rw [totalW]
    have hw := one_le_KEYWORD_WEIGHTS p.2
    have hrest : matchedW [] l ≤ totalW l := matchedW_le_totalW [] l
    have h0 : 0 ≤ totalW l := le_trans (matchedW_nonneg [] l) hrest
    linarith

/-- The matched weight reaches the total weight exactly when every job skill
is present in the resume skill list. -/
lemma matchedW_eq_totalW_iff (rs : List String) :
    ∀ l : List (String × Importance),
      (matchedW rs l = totalW l ↔ ∀ p ∈ l, rs.contains p.1 = true) := by
  intro l
  induction l with
  | nil => simp [matchedW, totalW]
  | cons p l ih =>
    rw [matchedW, totalW]
    have hw := one_le_KEYWORD_WEIGHTS p.2
    have hle := matchedW_le_totalW rs l
    by_cases hc : rs.contains p.1
    · rw [if_pos hc]
      constructor
      · intro h
        have : matchedW rs l = totalW l := by linarith
        intro q hq
        rcases List.mem_cons.mp hq with hq | hq
        · rw [hq]; exact hc
        · exact (ih.mp this) q hq
      · intro h
        have : matchedW rs l = totalW l :=
          ih.mpr (fun q hq => h q (List.mem_cons_of_mem p hq))
        linarith
    · rw [if_neg hc]
      constructor
      · intro h; linarith
      · intro h
        exact absurd (h p (List.mem_cons_self p l)) hc

/-- Claim C4 counterexample.  With no skill detected in the job description,
every detected job skill is (vacuously) present in the resume skill set, yet
`skills_match` is 0, not 100: the claimed equivalence fails for the empty
job-skill mapping. -/
theorem C4_counterexample :
    (([] : List (String × Importance)).all
      (fun p => (["python"] : List String).contains p.1)) = true ∧
    skills_match_of ["python"] [] ≠ 100 := by
  refine ⟨rfl, ?_⟩
  simp [skills_match_of, skillLoop]

/-- Claim C4, amended: `skills_match` always lies in [0,100], and equals 100
exactly when at least one skill was detected in the job description and every
detected skill (of any importance) is present in the resume skill list. -/
theorem C4_skills_match_range (rs : List String) (jd : List (String × Importance)) :
    0 ≤ skills_match_of rs jd ∧ skills_match_of rs jd ≤ 100 ∧
    (skills_match_of rs jd = 100 ↔ (jd ≠ [] ∧ ∀ p ∈ jd, rs.contains p.1 = true)) := by
  have ht := skillLoop_total rs jd
  have hm := skillLoop_matched rs jd
  simp only [skills_match_of, ht, hm]
  by_cases hnil : jd = []
  · subst hnil
    simp [totalW]
  · have h1 : 1 ≤ totalW jd := one_le_totalW jd hnil
    have ht0 : (0 : ℚ) < totalW jd := by linarith
    rw [if_pos ht0]
    have hmt := matchedW_le_totalW rs jd
    have hm0 := matchedW_nonneg rs jd
    refine ⟨by positivity, ?_, ?_⟩
    · have hdiv : matchedW rs jd / totalW jd ≤ 1 := (div_le_one ht0).mpr hmt
      nlinarith
    · constructor
      · intro h
        have hdiv : matchedW rs jd / totalW jd = 1 := by linarith
        have : matchedW rs jd = totalW jd := by
          field_simp at hdiv
          linarith
        exact ⟨hnil, (matchedW_eq_totalW_iff rs jd).mp this⟩
      · rintro ⟨-, hall⟩
        rw [(matchedW_eq_totalW_iff rs jd).mpr hall]
        field_simp

/-- Claim C4 witness: one detected must-have skill present in the resume gives
`skills_match` = 100 through the amended equivalence. -/
theorem C4_skills_match_range_witness :
    skills_match_of ["python"] [("python", Importance.must_have)] = 100 :=
  (C4_skills_match_range ["python"] [("python", Importance.must_have)]).2.2.mpr
    ⟨by simp, by decide⟩

/-! ## Keyword-coverage lemmas and claim C1 -/

/-- Stable insertion grows the length by one. -/
lemma length_insertByCountDesc (cnt : String → Nat) (x : String) :
    ∀ l, (insertByCountDesc cnt x l).length = l.length + 1 := by
  intro l
  induction l with
  | nil => rfl
  | cons y ys ih =>
    rw [insertByCountDesc]
    split_ifs <;> simp [ih]

/-- The stable sort preserves length. -/
lemma length_sortByCountDesc (cnt : String → Nat) :
    ∀ l, (sortByCountDesc cnt l).length = l.length := by
  intro l
  induction l with
  | nil => rfl
  | cons x xs ih =>
    rw [sortByCountDesc, length_insertByCountDesc, ih]
    rfl

/-- Claim C1 counterexample.  A job description with a single top keyword that
the resume contains yields coverage 1 = 1/1, not 1/20: the divisor is the
number of top keywords, not the constant 20. -/
theorem C1_counterexample :
    (calculate_keyword_frequency ["python"] "python".toList).top_keywords ≠ [] ∧
    (calculate_keyword_frequency ["python"] "python".toList).keyword_coverage ≠
      (((calculate_keyword_frequency ["python"] "python".toList).keyword_presence.filter
        (fun p => 0 < p.2)).length : ℚ) / 20 := by
  have hp : (calculate_keyword_frequency ["python"] "python".toList).keyword_presence =
      [("python", 1)] := by decide
  have hc : (calculate_keyword_frequency ["python"] "python".toList).keyword_coverage =
      ((1 : ℕ) : ℚ) / ((1 : ℕ) : ℚ) := rfl
  have ht : (calculate_keyword_frequency ["python"] "python".toList).top_keywords =
      ["python"] := by decide
  refine ⟨by rw [ht]; simp, ?_⟩
  rw [hc, hp]
  have hf : ([("python", (1 : ℕ))].filter (fun p => 0 < p.2)).length = 1 := rfl
  rw [hf]
  norm_num

/-- Claim C1, amended: the coverage is 0 when there are no top keywords, and
otherwise is the number of top keywords present in the resume divided by the
number of top keywords; that number is at most 20, and equals 20 — recovering
the claim's divisor — if and only if the job text has at least 20 distinct
qualifying keywords. -/
theorem C1_keyword_coverage (kws : List String) (text : List Char) :
    ((calculate_keyword_frequency kws text).top_keywords = [] →
      (calculate_keyword_frequency kws text).keyword_coverage = 0) ∧
    ((calculate_keyword_frequency kws text).top_keywords ≠ [] →
      (calculate_keyword_frequency kws text).keyword_coverage =
        (((calculate_keyword_frequency kws text).keyword_presence.filter
          (fun p => 0 < p.2)).length : ℚ) /
        ((calculate_keyword_frequency kws text).top_keywords.length : ℚ)) ∧
    (calculate_keyword_frequency kws text).top_keywords.length ≤ 20 ∧
    ((calculate_keyword_frequency kws text).top_keywords.length = 20 ↔
      20 ≤ (dedupFirst kws).length) ∧
    (20 ≤ (dedupFirst kws).length →
      (calculate_keyword_frequency kws text).keyword_coverage =
        (((calculate_keyword_frequency kws text).keyword_presence.filter
          (fun p => 0 < p.2)).length : ℚ) / 20) := by
  simp only [calculate_keyword_frequency]
  have hlen : ((sortByCountDesc (fun w => kws.count w) (dedupFirst kws)).take 20).length =
      min 20 (dedupFirst kws).length := by
    rw [List.length_take, length_sortByCountDesc]
  refine ⟨?_, ?_, ?_, ?_, ?_⟩
  · intro hnil
    rw [if_neg (fun hne => hne hnil)]
  · intro h
    rw [if_pos h]
  · rw [hlen]
    exact min_le_left _ _
  · rw [hlen]
    exact min_eq_left_iff
  · intro h20
    have hne : (sortByCountDesc (fun w => kws.count w) (dedupFirst kws)).take 20 ≠ [] := by
      intro hnil
      rw [hnil] at hlen
      simp only [List.length_nil] at hlen
      omega
    rw [if_pos hne, hlen, min_eq_left h20]
    norm_cast

/-- Claim C1 witness: two distinct keywords, one present in the resume, give
coverage through the nonempty branch of the amended statement, and an empty
keyword list gives coverage 0 through its empty branch. -/
theorem C1_keyword_coverage_witness :
    (calculate_keyword_frequency ["aaa", "bbb"] "aaa".toList).keyword_coverage =
      (((calculate_keyword_frequency ["aaa", "bbb"] "aaa".toList).keyword_presence.filter
        (fun p => 0 < p.2)).length : ℚ) /
      ((calculate_keyword_frequency ["aaa", "bbb"] "aaa".toList).top_keywords.length : ℚ) ∧
    (calculate_keyword_frequency [] []).keyword_coverage = 0 :=
  ⟨(C1_keyword_coverage ["aaa", "bbb"] "aaa".toList).2.1 (by decide),
   (C1_keyword_coverage [] []).1 (by decide)⟩

/-! ## Job-skill dict lemmas and claim C3 -/

/-- Looking up the key just inserted yields the inserted value. -/
lemma dictLookup_dictInsert_self (k : String) (v : Importance) :
    ∀ d, dictLookup k (dictInsert k v d) = some v := by
  intro d
  induction d with
  | nil => simp [dictInsert, dictLookup]
  | cons p rest ih =>
    by_cases hp : p.1 = k
    · simp [dictInsert, dictLookup, hp]
    · simp [dictInsert, dictLookup, hp, ih]

/-- Inserting one key leaves lookups of other keys unchanged. -/
lemma dictLookup_dictInsert_ne (k k' : String) (v : Importance) (hne : k' ≠ k) :
    ∀ d, dictLookup k' (dictInsert k v d) = dictLookup k' d := by
  have hkk : ¬ (k = k') := fun h => hne h.symm
  intro d
  induction d with
  | nil => simp [dictInsert, dictLookup, hkk]
  | cons p rest ih =>
    by_cases hp : p.1 = k
    · have hp' : ¬ (p.1 = k') := by rw [hp]; exact hkk
      simp [dictInsert, dictLookup, hp, hkk, hp']
    · simp [dictInsert, dictLookup, hp, ih]

/-- The phrase-matcher fold resolves a key to the classification of its LAST
match, falling back to the initial dict when the key never occurs. -/
lemma dictLookup_pass1_foldl (k : String) :
    ∀ (ms : List (String × String)) (d : List (String × Importance)),
      dictLookup k (ms.foldl (fun d m => dictInsert m.1 (classifyImportance m.2) d) d) =
        (match ms.reverse.find? (fun m => m.1 == k) with
         | some m => some (classifyImportance m.2)
         | none => dictLookup k d) := by
  intro ms
  induction ms with
  | nil => intro d; simp
  | cons m ms ih =>
    intro d
    rw [List.foldl_cons, ih, List.reverse_cons, List.find?_append]
    cases hfind : ms.reverse.find? (fun m => m.1 == k) with
    | some m' => simp [hfind]
    | none =>
      simp only [hfind, Option.none_or]
      by_cases hk : m.1 = k
      · have hfm : List.find? (fun m => m.1 == k) [m] = some m := by
          simp [List.find?_cons, hk]
        rw [hfm, hk]
        exact dictLookup_dictInsert_self k (classifyImportance m.2) d
      · have hfm : List.find? (fun m => m.1 == k) [m] = none := by
          simp [List.find?_cons, hk]
        rw [hfm]
        exact dictLookup_dictInsert_ne m.1 k (classifyImportance m.2) (fun h => hk h.symm) d

/-- Pass 1 resolves every key to the classification of its last match. -/
lemma dictLookup_jdSkillsPass1 (k : String) (ms : List (String × String)) :
    dictLookup k (jdSkillsPass1 ms) =
      (ms.reverse.find? (fun m => m.1 == k)).map (fun m => classifyImportance m.2) := by
  unfold jdSkillsPass1
  rw [dictLookup_pass1_foldl]
  cases ms.reverse.find? (fun m => m.1 == k) <;> simp [dictLookup]

/-- The fallback pass never changes the tag of a key already in the dict. -/
lemma pass2_foldl_preserves (jdc : List Char) (k : String) (v : Importance) :
    ∀ (skills : List String) (d : List (String × Importance)),
      dictLookup k d = some v →
      dictLookup k (skills.foldl (pass2Step jdc) d) = some v := by
  intro skills
  induction skills with
  | nil => intro d h; exact h
  | cons s ss ih =>
    intro d h
    rw [List.foldl_cons]
    apply ih
    unfold pass2Step
    split_ifs with hc
    · by_cases hsk : s = k
      · subst hsk
        rw [h] at hc
        simp at hc
      · rw [dictLookup_dictInsert_ne s k _ (fun hkk => hsk hkk.symm)]
        exact h
    · exact h

set_option maxRecDepth 80000 in
/-- Claim C3 counterexample.  Two phrase-matcher occurrences of "python", the
first classified preferred (its context says "desirable"), the second
must_have (its context says "required"): the dict assignment of pass 1
overwrites, so the final tag is the LAST classification, not the first one as
the claim states. -/
theorem C3_counterexample :
    classifyImportance "python is desirable w w w w w w w w" = Importance.preferred ∧
    classifyImportance "w w w w w w python is required" = Importance.must_have ∧
    dictLookup "python"
      (extract_jd_skills
        [("python", "python is desirable w w w w w w w w"),
         ("python", "w w w w w w python is required")]
        "python is desirable w w w w w w w w w w w w w w w w w w w w python is required".toList) =
      some Importance.must_have ∧
    Importance.must_have ≠ Importance.preferred := by
  refine ⟨rfl, rfl, ?_, by simp⟩
  rfl

/-- Claim C3, amended: within the phrase-matcher pass a later occurrence of a
skill overwrites its tag (the final tag is the classification of the LAST
occurrence), and the fallback regex pass never overwrites a tag the
phrase-matcher pass already set. -/
theorem C3_classification_order (jdMatches : List (String × String))
    (jd_clean : List Char) (skill : String) :
    dictLookup skill (jdSkillsPass1 jdMatches) =
      (jdMatches.reverse.find? (fun m => m.1 == skill)).map
        (fun m => classifyImportance m.2) ∧
    (∀ v, dictLookup skill (jdSkillsPass1 jdMatches) = some v →
      dictLookup skill (extract_jd_skills jdMatches jd_clean) = some v) := by
  refine ⟨dictLookup_jdSkillsPass1 skill jdMatches, ?_⟩
  intro v hv
  unfold extract_jd_skills jdSkillsPass2
  exact pass2_foldl_preserves jd_clean skill v ALL_SKILLS _ hv

set_option maxRecDepth 80000 in
/-- Claim C3 witness: a skill tagged by the phrase-matcher pass keeps its tag
through the fallback pass on a concrete job text. -/
theorem C3_classification_order_witness :
    dictLookup "python"
      (extract_jd_skills [("python", "python is a plus"), ("python", "python is required")]
        "python is a plus python is required".toList) = some Importance.must_have :=
  (C3_classification_order
    [("python", "python is a plus"), ("python", "python is required")]
    "python is a plus python is required".toList "python").2
    Importance.must_have (by rfl)

/-! ## Suggestion lemmas and claims C9, C10 -/

/-- Everything rules 1-7 emit is one of the seven rule suggestions. -/
lemma mem_rules1to7 (a : AnalysisResult) (x : Suggestion) (hx : x ∈ rules1to7 a) :
    x = criticalSkillsSuggestion a.missing_must_have ∨
    x = preferredSkillsSuggestion a.missing_preferred ∨
    x = skillsAlignmentSuggestion ∨ x = keywordsSuggestion ∨
    x = contentRelevanceSuggestion ∨ x = experienceSuggestion ∨
    x = educationSuggestion := by
  unfold rules1to7 at hx
  simp only [List.mem_append] at hx
  rcases hx with ((((((h | h) | h) | h) | h) | h) | h) <;>
    ( split_ifs at h <;> simp_all )

/-- The rule-8 "Resume Format" suggestion never comes from rules 1-7. -/
lemma formatSuggestion_not_mem_rules1to7 (a : AnalysisResult) :
    formatSuggestion ∉ rules1to7 a := by
  intro hx
  rcases mem_rules1to7 a _ hx with h | h | h | h | h | h | h <;>
    ( have hc := congrArg Suggestion.category h
      simp [formatSuggestion, criticalSkillsSuggestion, preferredSkillsSuggestion,
        skillsAlignmentSuggestion, keywordsSuggestion, contentRelevanceSuggestion,
        experienceSuggestion, educationSuggestion] at hc )

/-- The rule-8 "Quantify Achievements" suggestion never comes from rules 1-7. -/
lemma quantifySuggestion_not_mem_rules1to7 (a : AnalysisResult) :
    quantifySuggestion ∉ rules1to7 a := by
  intro hx
  rcases mem_rules1to7 a _ hx with h | h | h | h | h | h | h <;>
    ( have hc := congrArg Suggestion.category h
      simp [quantifySuggestion, criticalSkillsSuggestion, preferredSkillsSuggestion,
        skillsAlignmentSuggestion, keywordsSuggestion, contentRelevanceSuggestion,
        experienceSuggestion, educationSuggestion] at hc )

/-- Rules 1-7 emit at most 7 suggestions. -/
lemma length_rules1to7_le (a : AnalysisResult) : (rules1to7 a).length ≤ 7 := by
  unfold rules1to7
  simp only [List.length_append]
  have h : ∀ (c : Prop) [Decidable c] (y : Suggestion), (if c then [y] else []).length ≤ 1 := by
    intro c inst y
    split_ifs <;> simp
  have h1 := h (a.missing_must_have ≠ []) (criticalSkillsSuggestion a.missing_must_have)
  have h2 := h (a.missing_preferred ≠ []) (preferredSkillsSuggestion a.missing_preferred)
  have h3 := h (a.component_scores.skills_match < 50) skillsAlignmentSuggestion
  have h4 := h (a.component_scores.keyword_match < 40) keywordsSuggestion
  have h5 := h (a.component_scores.content_similarity < 30) contentRelevanceSuggestion
  have h6 := h (a.component_scores.experience_match < 50) experienceSuggestion
  have h7 := h (a.component_scores.education_match < 50) educationSuggestion
  omega

/-- Claim C9: the two rule-8 generic suggestions appear in the output only
when no rule 1-7 suggestion was emitted and the overall score is below 85; and
a score below 40 always puts the High "Overall Match" suggestion in the
output, whatever else fired. -/
theorem C9_rule8_rule9 (a : AnalysisResult) :
    ((formatSuggestion ∈ generate_improvement_suggestions a ∨
      quantifySuggestion ∈ generate_improvement_suggestions a) →
      rules1to7 a = [] ∧ a.score < 85) ∧
    (a.score < 40 → overallMatchSuggestion ∈ generate_improvement_suggestions a) := by
  constructor
  · intro h
    by_cases h8 : rules1to7 a = [] ∧ a.score < 85
    · exact h8
    · exfalso
      simp only [generate_improvement_suggestions, if_neg h8] at h
      by_cases h40 : a.score < 40
      · rw [if_pos h40] at h
        rcases h with h | h <;> rcases List.mem_append.mp h with h | h
        · exact formatSuggestion_not_mem_rules1to7 a h
        · exact absurd (congrArg Suggestion.category (List.mem_singleton.mp h)) (by decide)
        · exact quantifySuggestion_not_mem_rules1to7 a h
        · exact absurd (congrArg Suggestion.category (List.mem_singleton.mp h)) (by decide)
      · rw [if_neg h40] at h
        rcases h with h | h
        · exact formatSuggestion_not_mem_rules1to7 a h
        · exact quantifySuggestion_not_mem_rules1to7 a h
  · intro h40
    simp only [generate_improvement_suggestions, if_pos h40]
    exact List.mem_append_right _ (List.mem_singleton.mpr rfl)

/-- Claim C9 witness: on a result with score 30 and nothing else wrong, no
rule 1-7 suggestion fires and the Overall Match suggestion is emitted. -/
theorem C9_rule8_rule9_witness :
    (rules1to7 ⟨30, ⟨100, 100, 100, 100, 100⟩, [], []⟩ = [] ∧ (30 : ℚ) < 85) ∧
    overallMatchSuggestion ∈
      generate_improvement_suggestions ⟨30, ⟨100, 100, 100, 100, 100⟩, [], []⟩ := by
  constructor
  · exact (C9_rule8_rule9 ⟨30, ⟨100, 100, 100, 100, 100⟩, [], []⟩).1 (Or.inl (by decide))
  · exact (C9_rule8_rule9 ⟨30, ⟨100, 100, 100, 100, 100⟩, [], []⟩).2 (by norm_num)

/-- Claim C10: the generator emits at most 8 suggestions, and every emitted
priority is High, Medium or Low. -/
theorem C10_suggestions_invariant (a : AnalysisResult) :
    (generate_improvement_suggestions a).length ≤ 8 ∧
    ∀ s ∈ generate_improvement_suggestions a,
      s.priority = "High" ∨ s.priority = "Medium" ∨ s.priority = "Low" := by
  have hpr : ∀ x ∈ rules1to7 a,
      x.priority = "High" ∨ x.priority = "Medium" ∨ x.priority = "Low" := by
    intro x hx
    rcases mem_rules1to7 a x hx with h | h | h | h | h | h | h <;> subst h <;>
      simp [criticalSkillsSuggestion, preferredSkillsSuggestion, skillsAlignmentSuggestion,
        keywordsSuggestion, contentRelevanceSuggestion, experienceSuggestion,
        educationSuggestion]
  constructor
  · simp only [generate_improvement_suggestions]
    by_cases h8 : rules1to7 a = [] ∧ a.score < 85
    · rw [if_pos h8, h8.1]
      by_cases h40 : a.score < 40
      · rw [if_pos h40]; simp
      · rw [if_neg h40]; simp
    · rw [if_neg h8]
      have h7 := length_rules1to7_le a
      by_cases h40 : a.score < 40
      · rw [if_pos h40]
        simp only [List.length_append, List.length_singleton]
        omega
      · rw [if_neg h40]
        omega
  · intro s hs
    have hfq : ∀ x ∈ [formatSuggestion, quantifySuggestion],
        x.priority = "High" ∨ x.priority = "Medium" ∨ x.priority = "Low" := by
      intro x hx
      rcases List.mem_cons.mp hx with h | h
      · subst h; simp [formatSuggestion]
      · simp only [List.mem_singleton] at h
        subst h; simp [quantifySuggestion]
    have ho : ∀ x ∈ [overallMatchSuggestion],
        x.priority = "High" ∨ x.priority = "Medium" ∨ x.priority = "Low" := by
      intro x hx
      simp only [List.mem_singleton] at hx
      subst hx; simp [overallMatchSuggestion]
    simp only [generate_improvement_suggestions] at hs
    split_ifs at hs
    · rcases List.mem_append.mp hs with h | h
      · rcases List.mem_append.mp h with h2 | h2
        · exact hpr s h2
        · exact hfq s h2
      · exact ho s h
    · rcases List.mem_append.mp hs with h | h
      · exact hpr s h
      · exact ho s h
    · rcases List.mem_append.mp hs with h | h
      · exact hpr s h
      · exact hfq s h
    · exact hpr s hs

/-- Claim C10 witness: a low-scoring result with every component weak yields a
suggestion list within the bound whose members carry valid priorities. -/
theorem C10_suggestions_invariant_witness :
    (generate_improvement_suggestions ⟨30, ⟨0, 0, 0, 0, 0⟩, ["kubernetes"], []⟩).length ≤ 8 ∧
    (overallMatchSuggestion.priority = "High" ∨ overallMatchSuggestion.priority = "Medium" ∨
      overallMatchSuggestion.priority = "Low") := by
  constructor
  · exact (C10_suggestions_invariant ⟨30, ⟨0, 0, 0, 0, 0⟩, ["kubernetes"], []⟩).1
  · exact (C10_suggestions_invariant ⟨30, ⟨0, 0, 0, 0, 0⟩, ["kubernetes"], []⟩).2
      overallMatchSuggestion (by decide)

/-! ## Claim C7: `score_resume` input validation -/

/-- Claim C7 counterexample.  `score_resume` evaluated on the empty job
description (`jd_text = ""`, with the externally supplied extractor outputs an
empty job text produces: no matcher matches, no requirements, no keywords,
zero similarity) succeeds and returns a result; it does not fail with
`InvalidInputError` — no such validation exists anywhere in the source. -/
theorem C7_counterexample :
    (score_resume ⟨"python developer".toList, ["python"], ⟨[], [], none⟩, ⟨[], [], []⟩⟩ ""
      [] [] ⟨false, none, none⟩ 0 []).isOk = true := rfl

set_option maxRecDepth 200000 in
/-- Claim C7, amended: `score_resume` performs no input validation at all — it
returns a `ScoreResult` for every input, the empty job description included
(where the skills-match and keyword components are 0), and never fails with
`InvalidInputError`. -/
theorem C7_score_never_fails :
    (∀ (resume : ResumeData) (jd_text : String) (jdMatches : List (String × String))
       (jdExp : List (String × Nat)) (jdEdu : JdEduReq) (sim : ℚ) (kws : List String),
      (score_resume resume jd_text jdMatches jdExp jdEdu sim kws).isOk = true) ∧
    (∀ resume : ResumeData, ∃ res,
      score_resume resume "" [] [] ⟨false, none, none⟩ 0 [] = Except.ok res ∧
      res.component_scores.skills_match = 0 ∧
      res.component_scores.keyword_match = 0) := by
  have hz : round1 0 = 0 := by norm_num [round1]
  have hz100 : round1 (0 * 100) = 0 := by norm_num [round1]
  constructor
  · intro resume jd_text jdMatches jdExp jdEdu sim kws
    rfl
  · intro resume
    refine ⟨_, rfl, ?_, ?_⟩
    · exact hz
    · exact hz100

end ATS
